import Mathlib

/-!
Verification of the stereo SBS renderer (viture_3d_demo.py,
viture_sbs_renderer.py).

Shallow embedding: particle and event state is modelled over the rationals,
trigonometric scene state over the reals. Each definition mirrors one Python
function or class of the source. Definitions come first, then the theorems.
-/

namespace Viture

/-! ## Definitions -/

/-! ### Particle (class Star, viture_3d_demo.py lines 50 to 65) -/

/-- One starfield particle. Fields mirror Star.__init__ / Star.reset. -/
structure Star where
  x : ℚ
  y : ℚ
  z : ℚ
  speed : ℚ
  deriving DecidableEq, Repr

/-- One draw from the random stream: the values random.uniform would return
for x, y and speed inside Star.reset. -/
structure RandDraw where
  rx : ℚ
  ry : ℚ
  rspeed : ℚ
  deriving DecidableEq, Repr

/-- The draw lies in the ranges the source passes to random.uniform:
x in [-50, 50], y in [-30, 30], speed in [0.5, 2.0]. -/
def RandDraw.inRange (d : RandDraw) : Prop :=
  -50 ≤ d.rx ∧ d.rx ≤ 50 ∧ -30 ≤ d.ry ∧ d.ry ≤ 30 ∧ 1/2 ≤ d.rspeed ∧ d.rspeed ≤ 2

/-- Star.reset: fresh lateral position and speed from the stream, z back to 100. -/
def Star.reset (d : RandDraw) : Star :=
  { x := d.rx, y := d.ry, z := 100, speed := d.rspeed }

/-- Star.update: z -= speed * dt * 30; if z < 1: reset. -/
def Star.update (s : Star) (dt : ℚ) (d : RandDraw) : Star :=
  if s.z - s.speed * dt * 30 < 1 then Star.reset d
  else { s with z := s.z - s.speed * dt * 30 }

/-- A finite sequence of updates, each with its dt and its random draw. -/
def Star.steps (s : Star) (us : List (ℚ × RandDraw)) : Star :=
  us.foldl (fun st u => st.update u.1 u.2) s

/-! ### Floating solid (class FloatingObject, viture_3d_demo.py lines 68 to 95) -/

/-- A floating solid body. Fields mirror FloatingObject.__init__; the random
initial draws are carried as ordinary field values. The y_offset field is
first assigned inside update in the source; here it starts at 0. -/
structure FloatingObject where
  kind : String
  x : ℝ
  y : ℝ
  z_base : ℝ
  z : ℝ
  color : ℝ × ℝ × ℝ
  size : ℝ
  rot_x : ℝ
  rot_y : ℝ
  rot_speed_x : ℝ
  rot_speed_y : ℝ
  bob_offset : ℝ
  bob_speed : ℝ
  z_amplitude : ℝ
  z_speed : ℝ
  z_phase : ℝ
  y_offset : ℝ

/-- FloatingObject.update: integrate the two rotation angles, recompute the
vertical bob offset and the sinusoidal depth from the elapsed time. -/
noncomputable def FloatingObject.update (o : FloatingObject) (dt time_s : ℝ) :
    FloatingObject :=
  { o with
    rot_x := o.rot_x + o.rot_speed_x * dt
    rot_y := o.rot_y + o.rot_speed_y * dt
    y_offset := Real.sin (time_s * o.bob_speed + o.bob_offset) * 0.3
    z := o.z_base + Real.sin (time_s * o.z_speed + o.z_phase) * o.z_amplitude }

/-- The single scene object built in Demo3DScene.__init__: a cube at
(0, 0, 15) with color (1, 0.5, 0.2) and size 2.0, with z_amplitude
overridden to 12, z_speed to 0.25 and z_phase to 0. The rotation and bob
fields are drawn at random in the source; one admissible draw is fixed. -/
noncomputable def demoCube : FloatingObject :=
  { kind := "cube", x := 0, y := 0, z_base := 15, z := 15
    color := (1, 1/2, 1/5), size := 2
    rot_x := 0, rot_y := 0, rot_speed_x := 0, rot_speed_y := 0
    bob_offset := 0, bob_speed := 1
    z_amplitude := 12, z_speed := 1/4, z_phase := 0, y_offset := 0 }

/-! ### Scene state and the per-frame flow
(Demo3DScene.render_scene lines 274 to 324, Demo3DScene.render_frame lines
342 to 366 of viture_3d_demo.py) -/

/-- The mutable scene entity state: the starfield and the floating objects.
The composite ring is a pure function of elapsed time and carries no state. -/
structure SceneState where
  stars : List Star
  objs : List FloatingObject

/-- The star update pass at the top of render_scene: every star is updated
with the frame dt, drawing from the random stream on respawn. -/
def updateStars : List Star → ℚ → (ℕ → RandDraw) → List Star
  | [], _, _ => []
  | s :: rest, dt, draws =>
      s.update dt (draws 0) :: updateStars rest dt (fun i => draws (i + 1))

/-- Demo3DScene.render_scene: called once per eye, it MUTATES the scene
(star update and object update) and then draws the resulting state, so the
state it returns is exactly the state that eye observes. -/
noncomputable def render_scene (st : SceneState) (time_s : ℝ) (dt : ℚ)
    (draws : ℕ → RandDraw) : SceneState :=
  { stars := updateStars st.stars dt draws
    objs := st.objs.map fun o => o.update (dt : ℝ) time_s }

/-- Demo3DScene.render_frame: renders the left eye (one render_scene call),
then the right eye (a second render_scene call on the resulting state).
The first component is the state observed by the left-eye draw, the second
the state observed by the right-eye draw (also the frame-final state). -/
noncomputable def render_frame (st : SceneState) (time_s : ℝ) (dt : ℚ)
    (drawsL drawsR : ℕ → RandDraw) : SceneState × SceneState :=
  (render_scene st time_s dt drawsL,
   render_scene (render_scene st time_s dt drawsL) time_s dt drawsR)

/-- A concrete probe star for the frame-flow evaluation. -/
def probeStar : Star := ⟨0, 0, 50, 1⟩

/-- A constant random stream (never consumed on this input, since the probe
star does not respawn). -/
def constDraw : ℕ → RandDraw := fun _ => ⟨0, 0, 1⟩

/-! ### Parallel-axis stereo camera
(Demo3DScene.set_stereo_projection, viture_3d_demo.py lines 172 to 191) -/

/-- The eye selector passed to the projection setup. -/
inductive Eye
  | left
  | right

/-- The camera parameters read by both projection variants: IPD (meters),
vertical field of view (degrees), near and far clip distances, per-eye
aspect ratio eye_width / height. -/
structure StereoConfig where
  ipd : ℝ
  fov : ℝ
  near : ℝ
  far : ℝ
  aspect : ℝ

/-- The per-eye camera x position of set_stereo_projection: the left eye at
-IPD/2, the right eye at +IPD/2. -/
noncomputable def eye_x (ipd : ℝ) : Eye → ℝ
  | .left => -ipd / 2
  | .right => ipd / 2

/-- The symmetric perspective specification handed to gluPerspective. -/
structure PerspectiveSpec where
  fov : ℝ
  aspect : ℝ
  near : ℝ
  far : ℝ

/-- Demo3DScene.set_stereo_projection: install one symmetric perspective
(gluPerspective with the same fov, aspect, near, far for both eyes) and the
modelview translation glTranslatef(-eye_x, 0, 0). The second component is
the x translation applied to scene points. -/
noncomputable def set_stereo_projection (c : StereoConfig) (eye : Eye) :
    PerspectiveSpec × ℝ :=
  (⟨c.fov, c.aspect, c.near, c.far⟩, -(eye_x c.ipd eye))

/-- The focal factor of gluPerspective: the cotangent of half the vertical
field of view, the field of view being given in degrees. -/
noncomputable def focal (fovDeg : ℝ) : ℝ :=
  1 / Real.tan (fovDeg * Real.pi / 180 / 2)

/-- Screen-space (normalized device) coordinates of a view-space point under
a symmetric perspective: x scaled by focal / aspect and y by focal, both
divided by the view depth -z. -/
noncomputable def projectPoint (spec : PerspectiveSpec) (v : ℝ × ℝ × ℝ) :
    ℝ × ℝ :=
  (focal spec.fov / spec.aspect * v.1 / (-v.2.2),
   focal spec.fov * v.2.1 / (-v.2.2))

/-- The screen-space projection of a scene point for one eye: apply that
eye's modelview translation, then the shared perspective. -/
noncomputable def eyeScreen (c : StereoConfig) (eye : Eye) (p : ℝ × ℝ × ℝ) :
    ℝ × ℝ :=
  projectPoint (set_stereo_projection c eye).1
    (p.1 + (set_stereo_projection c eye).2, p.2.1, p.2.2)

/-- The camera configuration of Demo3DScene.__init__: IPD 0.07 m, fov 55,
near 0.1, far 200, eyes of 1920 by 1080 pixels. -/
noncomputable def demoConfig : StereoConfig :=
  ⟨7/100, 55, 1/10, 200, 1920/1080⟩

/-! ### Asymmetric-frustum stereo camera
(VitureRenderer.set_projection, viture_sbs_renderer.py lines 132 to 161) -/

/-- The frustum bounds handed to glFrustum. -/
structure Frustum where
  left_f : ℝ
  right_f : ℝ
  bottom : ℝ
  top : ℝ
  near : ℝ
  far : ℝ

/-- The per-eye offset of VitureRenderer.set_projection: -IPD/2 for the left
eye, +IPD/2 for the right eye. -/
noncomputable def eye_offset (ipd : ℝ) : Eye → ℝ
  | .left => -ipd / 2
  | .right => ipd / 2

/-- The convergence distance assumed by the frustum skew: the literal 1.0 in
the source, independent of every camera parameter. -/
noncomputable def convergence : ℝ := 1

/-- The un-skewed horizontal half-extent a = aspect * tan(fov / 2) * near
computed inside VitureRenderer.set_projection. -/
noncomputable def skewBase (c : StereoConfig) : ℝ :=
  c.aspect * Real.tan (c.fov / 2 * Real.pi / 180) * c.near

/-- VitureRenderer.set_projection: compute the skewed frustum handed to
glFrustum (b = a - eye_offset * near / convergence and
c = -a - eye_offset * near / convergence, swapped and negated for the
right eye) plus the camera translation glTranslatef(-eye_offset, 0, 0).
The second component is the x translation. -/
noncomputable def set_projection (c : StereoConfig) (eye : Eye) :
    Frustum × ℝ :=
  let eo := eye_offset c.ipd eye
  let top := c.near * Real.tan (c.fov / 2 * Real.pi / 180)
  let b := skewBase c - eo * (c.near / convergence)
  let c2 := -skewBase c - eo * (c.near / convergence)
  let lf := match eye with | .left => c2 | .right => -b
  let rf := match eye with | .left => b | .right => -c2
  (⟨lf, rf, -top, top, c.near, c.far⟩, -eo)

/-! ### Frame composition rectangles
(Demo3DScene.render_frame lines 342 to 366 of viture_3d_demo.py and
VitureRenderer.render_frame lines 257 to 297 of viture_sbs_renderer.py) -/

/-- An axis-aligned pixel rectangle as passed to glViewport and glScissor. -/
structure Rect where
  x : ℕ
  y : ℕ
  w : ℕ
  h : ℕ
  deriving DecidableEq, Repr

/-- One per-eye pass of render_frame: the viewport and scissor rectangles
installed before that eye's draw calls. -/
structure EyePass where
  eye : Eye
  viewport : Rect
  scissor : Rect

/-- The two passes of render_frame in source order: the left eye, then the
right eye, each with viewport and scissor set to the same rectangle;
eye_width is width // 2 as in both sources. -/
def framePasses (width height : ℕ) : List EyePass :=
  [⟨.left, ⟨0, 0, width / 2, height⟩, ⟨0, 0, width / 2, height⟩⟩,
   ⟨.right, ⟨width / 2, 0, width / 2, height⟩,
     ⟨width / 2, 0, width / 2, height⟩⟩]

/-- A device-space fragment position lies inside a scissor rectangle; the
scissor test keeps a fragment drawn during a pass only when this holds. -/
def inScissor (r : Rect) (px py : ℕ) : Prop :=
  r.x ≤ px ∧ px < r.x + r.w ∧ r.y ≤ py ∧ py < r.y + r.h

instance (r : Rect) (px py : ℕ) : Decidable (inScissor r px py) := by
  unfold inScissor; infer_instance

/-! ### IPD adjustment (Demo3DScene.handle_events lines 368 to 381) -/

/-- A polled IPD-adjustment intent: the plus or equals key, or the minus
key. -/
inductive IPDIntent
  | increase
  | decrease
  deriving DecidableEq, Repr

/-- Demo3DScene.handle_events on one intent: plus adds the fixed step
0.005; minus subtracts 0.005 and clamps at the minimum 0.02. -/
def applyIntent (ipd : ℚ) : IPDIntent → ℚ
  | .increase => ipd + 5/1000
  | .decrease => max (2/100) (ipd - 5/1000)

/-- A polled sequence of intents applied in order. -/
def runIntents (ipd : ℚ) (es : List IPDIntent) : ℚ :=
  es.foldl applyIntent ipd

/-- The initial IPD of Demo3DScene.__init__: 0.070 m. -/
def initialIPD : ℚ := 7/100

/-! ### Initialization failure handling
(viture_3d_demo.py: _init_sdl lines 125 to 158, main lines 419 to 430;
viture_sbs_renderer.py: main lines 342 to 360) -/

/-- Which environment calls succeed during _init_sdl. -/
structure InitEnv where
  sdlInitOk : Bool
  windowOk : Bool
  glContextOk : Bool
  deriving DecidableEq, Repr

/-- _init_sdl (identical structure in both programs): SDL_Init, then
SDL_CreateWindow, then SDL_GL_CreateContext; the first failing call raises
RuntimeError with its message. -/
def init_sdl (e : InitEnv) : Except String Unit :=
  if !e.sdlInitOk then .error "SDL_Init failed"
  else if !e.windowOk then .error "SDL_CreateWindow failed"
  else if !e.glContextOk then .error "SDL_GL_CreateContext failed"
  else .ok ()

/-- What a main function did: the process exit code, whether the failure
was reported, and whether the render loop was entered. -/
structure RunOutcome where
  exitCode : ℕ
  reported : Bool
  loopEntered : Bool
  deriving DecidableEq, Repr

/-- main of viture_3d_demo.py: construction raises out of _init_sdl before
run() is reached; the except clause prints the error and falls through, so
the process finishes normally with exit code 0. -/
def demoMain (e : InitEnv) : RunOutcome :=
  match init_sdl e with
  | .error _ => ⟨0, true, false⟩
  | .ok _ => ⟨0, false, true⟩

/-- main of viture_sbs_renderer.py: the except clause prints the error and
calls sys.exit(1). -/
def sbsMain (e : InitEnv) : RunOutcome :=
  match init_sdl e with
  | .error _ => ⟨1, true, false⟩
  | .ok _ => ⟨0, false, true⟩

/-! ### HSV conversion (Demo3DScene.hsv_to_rgb lines 326 to 340 and its
call site in render_scene lines 316 to 319 of viture_3d_demo.py) -/

/-- Python int(): truncation toward zero. -/
def pyint (x : ℚ) : ℤ :=
  if x < 0 then ⌈x⌉ else ⌊x⌋

/-- Demo3DScene.hsv_to_rgb: the sextant construction. The fall-through of
the Python method (returning None when no branch matches) is the none
value. Python int() truncates toward zero and Python % on a positive
modulus is nonnegative (Int.emod). -/
def hsv_to_rgb (h s v : ℚ) : Option (ℚ × ℚ × ℚ) :=
  if s = 0 then some (v, v, v)
  else
    let i0 : ℤ := pyint (h * 6)
    let f : ℚ := h * 6 - (i0 : ℚ)
    let p := v * (1 - s)
    let q := v * (1 - s * f)
    let t := v * (1 - s * (1 - f))
    let i := i0 % 6
    if i = 0 then some (v, t, p)
    else if i = 1 then some (q, v, p)
    else if i = 2 then some (p, v, t)
    else if i = 3 then some (p, q, v)
    else if i = 4 then some (t, p, v)
    else if i = 5 then some (v, p, q)
    else none

/-- Python float modulo 1.0 as used at the call site: x % 1.0 = x - floor x. -/
def pymod1 (x : ℚ) : ℚ := x - (⌊x⌋ : ℚ)

/-- The hue submitted for ring cube i at elapsed time t in render_scene:
(i / 8.0 + time_s * 0.1) % 1.0. -/
def ring_hue (i : ℕ) (t : ℚ) : ℚ := pymod1 ((i : ℚ) / 8 + t * (1/10))

/-! ## Theorems -/

/-! ### C2: particle depth invariant -/

lemma Star.update_z_bounds (s : Star) (dt : ℚ) (d : RandDraw)
    (hz1 : s.z ≤ 100) (hsp : 0 ≤ s.speed) (hdt : 0 ≤ dt) :
    0 < (s.update dt d).z ∧ (s.update dt d).z ≤ 100 := by
  unfold Star.update
  by_cases h : s.z - s.speed * dt * 30 < 1
  · simp only [h, if_true, Star.reset]
    norm_num
  · simp only [h, if_false]
    push_neg at h
    have hnn : 0 ≤ s.speed * dt * 30 := by positivity
    exact ⟨by linarith, by linarith⟩

lemma Star.update_speed_bound (s : Star) (dt : ℚ) (d : RandDraw)
    (hsp : 0 ≤ s.speed) (hd : d.inRange) : 0 ≤ (s.update dt d).speed := by
  unfold Star.update
  by_cases h : s.z - s.speed * dt * 30 < 1
  · simp only [h, if_true, Star.reset]
    obtain ⟨-, -, -, -, h5, -⟩ := hd
    linarith
  · simpa [h] using hsp

lemma Star.steps_invariant (us : List (ℚ × RandDraw)) (s : Star)
    (hus : ∀ u ∈ us, 0 ≤ u.1 ∧ u.2.inRange)
    (hz0 : 0 < s.z) (hz1 : s.z ≤ 100) (hsp : 0 ≤ s.speed) :
    0 < (s.steps us).z ∧ (s.steps us).z ≤ 100 := by
  induction us generalizing s with
  | nil => exact ⟨hz0, hz1⟩
  | cons u rest ih =>
    have hu := hus u (List.mem_cons_self u rest)
    have hz := Star.update_z_bounds s u.1 u.2 hz1 hsp hu.1
    have hsp' := Star.update_speed_bound s u.1 u.2 hsp hu.2
    exact ih (s.update u.1 u.2)
      (fun v hv => hus v (List.mem_cons_of_mem u hv)) hz.1 hz.2 hsp'

/-- Claim C2: for every particle and every finite update sequence with
nonnegative dt and in-range random draws, z stays in (0, 100]; a non-respawn
update decrements z by exactly speed * dt * 30, and an update whose decremented
z falls below 1 respawns with z = 100, x in [-50, 50], y in [-30, 30] and a
fresh speed in [0.5, 2.0]. -/
theorem particle_depth_invariant (s : Star) (us : List (ℚ × RandDraw))
    (dt : ℚ) (d : RandDraw)
    (hus : ∀ u ∈ us, 0 ≤ u.1 ∧ u.2.inRange)
    (hz0 : 0 < s.z) (hz1 : s.z ≤ 100) (hsp : 0 ≤ s.speed) (hd : d.inRange) :
    (0 < (s.steps us).z ∧ (s.steps us).z ≤ 100)
    ∧ (¬ s.z - s.speed * dt * 30 < 1 →
        (s.update dt d).z = s.z - s.speed * dt * 30)
    ∧ (s.z - s.speed * dt * 30 < 1 →
        (s.update dt d).z = 100
        ∧ -50 ≤ (s.update dt d).x ∧ (s.update dt d).x ≤ 50
        ∧ -30 ≤ (s.update dt d).y ∧ (s.update dt d).y ≤ 30
        ∧ 1/2 ≤ (s.update dt d).speed ∧ (s.update dt d).speed ≤ 2) := by
  refine ⟨Star.steps_invariant us s hus hz0 hz1 hsp, ?_, ?_⟩
  · intro h
    simp [Star.update, h]
  · intro h
    obtain ⟨h1, h2, h3, h4, h5, h6⟩ := hd
    have hupd : s.update dt d = Star.reset d := by
      simp [Star.update, h]
    rw [hupd]
    exact ⟨rfl, h1, h2, h3, h4, h5, h6⟩

/-- Witness for C2 at a concrete particle: z = 2, speed = 1, one update with
dt = 1/20 leaves the decremented z at 0.5, below the threshold, so the
particle respawns at z = 100 with bounded x and y. -/
theorem particle_depth_invariant_witness :
    ((∀ u ∈ [((1:ℚ)/20, RandDraw.mk 3 (-4) 1)], 0 ≤ u.1 ∧ u.2.inRange)
      ∧ 0 < (2:ℚ) ∧ (2:ℚ) ≤ 100 ∧ 0 ≤ (1:ℚ)
      ∧ (RandDraw.mk 3 (-4) 1).inRange)
    ∧ (0 < ((Star.mk 0 0 2 1).steps [((1:ℚ)/20, RandDraw.mk 3 (-4) 1)]).z
      ∧ ((Star.mk 0 0 2 1).steps [((1:ℚ)/20, RandDraw.mk 3 (-4) 1)]).z ≤ 100) := by
  have hlist : ∀ u ∈ [((1:ℚ)/20, RandDraw.mk 3 (-4) 1)], 0 ≤ u.1 ∧ u.2.inRange := by
    simp only [List.mem_singleton, forall_eq]
    norm_num [RandDraw.inRange]
  have hd : (RandDraw.mk 3 (-4) 1).inRange := by
    norm_num [RandDraw.inRange]
  refine ⟨⟨hlist, by norm_num, by norm_num, by norm_num, hd⟩, ?_⟩
  exact (particle_depth_invariant (Star.mk 0 0 2 1)
    [((1:ℚ)/20, RandDraw.mk 3 (-4) 1)] (1/20) (RandDraw.mk 3 (-4) 1)
    hlist (by norm_num) (by norm_num) (by norm_num) hd).1

/-! ### C3 and C8: solid depth -/

lemma FloatingObject.update_z (o : FloatingObject) (dt t : ℝ) :
    (o.update dt t).z
      = o.z_base + Real.sin (t * o.z_speed + o.z_phase) * o.z_amplitude := rfl

/-- Claim C3: after an update at any elapsed time t with t greater or equal 0,
the depth of a solid lies in the inclusive band
[z_base - z_amplitude, z_base + z_amplitude]. -/
theorem solid_depth_band (o : FloatingObject) (dt t : ℝ)
    (ht : 0 ≤ t) (hamp : 0 ≤ o.z_amplitude) :
    o.z_base - o.z_amplitude ≤ (o.update dt t).z
    ∧ (o.update dt t).z ≤ o.z_base + o.z_amplitude := by
  rw [FloatingObject.update_z]
  have h1 := Real.neg_one_le_sin (t * o.z_speed + o.z_phase)
  have h2 := Real.sin_le_one (t * o.z_speed + o.z_phase)
  constructor <;> nlinarith

/-- Witness for C3 at the demo cube and elapsed time 0. -/
theorem solid_depth_band_witness :
    ((0:ℝ) ≤ 0 ∧ (0:ℝ) ≤ demoCube.z_amplitude)
    ∧ (demoCube.z_base - demoCube.z_amplitude ≤ (demoCube.update 1 0).z
      ∧ (demoCube.update 1 0).z ≤ demoCube.z_base + demoCube.z_amplitude) := by
  have hamp : (0:ℝ) ≤ demoCube.z_amplitude := by norm_num [demoCube]
  exact ⟨⟨le_refl 0, hamp⟩, solid_depth_band demoCube 1 0 (le_refl 0) hamp⟩

/-- Claim C8: the demo cube (base 15, amplitude 12, phase 0, frequency 0.25)
reports depth exactly 15 after an update at elapsed 0, exactly 27 at the
quarter period (elapsed 2 pi, where the sine is 1) and exactly 3 at the
three-quarter period (elapsed 6 pi, where the sine is -1). -/
theorem demo_cube_depth_keyframes (dt : ℝ) :
    (demoCube.update dt 0).z = 15
    ∧ (demoCube.update dt (2 * Real.pi)).z = 27
    ∧ (demoCube.update dt (6 * Real.pi)).z = 3 := by
  refine ⟨?_, ?_, ?_⟩
  · rw [FloatingObject.update_z]
    norm_num [demoCube]
  · rw [FloatingObject.update_z]
    have h : 2 * Real.pi * demoCube.z_speed + demoCube.z_phase = Real.pi / 2 := by
      simp only [demoCube]; ring
    rw [h, Real.sin_pi_div_two]
    norm_num [demoCube]
  · rw [FloatingObject.update_z]
    have h : 6 * Real.pi * demoCube.z_speed + demoCube.z_phase
        = Real.pi / 2 + Real.pi := by
      simp only [demoCube]; ring
    rw [h, Real.sin_add_pi, Real.sin_pi_div_two]
    norm_num [demoCube]

/-! ### C1: the per-frame flow advances the scene once per eye -/

/-- Claim C1 (code evaluation at the failing input): with one star at depth
50 and speed 1 and dt = 0.1, render_frame advances the scene once per eye,
so the left-eye draw observes the star at z = 47 and the right-eye draw
observes it at z = 44: the two eyes of one frame see different entity
state, contradicting the advance-once-then-render-twice data flow. -/
theorem render_frame_double_advance :
    (render_frame ⟨[probeStar], [demoCube]⟩ 0 (1/10) constDraw constDraw).1.stars
      = [⟨0, 0, 47, 1⟩]
    ∧ (render_frame ⟨[probeStar], [demoCube]⟩ 0 (1/10) constDraw constDraw).2.stars
      = [⟨0, 0, 44, 1⟩]
    ∧ (render_frame ⟨[probeStar], [demoCube]⟩ 0 (1/10) constDraw constDraw).1.stars
      ≠ (render_frame ⟨[probeStar], [demoCube]⟩ 0 (1/10) constDraw constDraw).2.stars := by
  have h1 : (render_frame ⟨[probeStar], [demoCube]⟩ 0 (1/10) constDraw constDraw).1.stars
      = [⟨0, 0, 47, 1⟩] := by
    norm_num [render_frame, render_scene, updateStars, Star.update, probeStar, constDraw]
  have h2 : (render_frame ⟨[probeStar], [demoCube]⟩ 0 (1/10) constDraw constDraw).2.stars
      = [⟨0, 0, 44, 1⟩] := by
    norm_num [render_frame, render_scene, updateStars, Star.update, probeStar, constDraw]
  refine ⟨h1, h2, ?_⟩
  rw [h1, h2]
  intro hcontra
  simp only [List.cons.injEq, Star.mk.injEq] at hcontra
  norm_num at hcontra

/-! ### C4: parallel-axis stereo -/

/-- Claim C4: both eyes share one symmetric perspective; the only per-eye
difference is the camera x position -IPD/2 (left) and +IPD/2 (right); for a
point in front of the cameras the two screen projections have identical
vertical coordinates and differ horizontally by exactly
focal / aspect * IPD / (-z). -/
theorem parallel_stereo_projection (c : StereoConfig) (p : ℝ × ℝ × ℝ)
    (hz : p.2.2 < 0) :
    (set_stereo_projection c .left).1 = (set_stereo_projection c .right).1
    ∧ eye_x c.ipd .left = -c.ipd / 2
    ∧ eye_x c.ipd .right = c.ipd / 2
    ∧ (eyeScreen c .left p).2 = (eyeScreen c .right p).2
    ∧ (eyeScreen c .left p).1 - (eyeScreen c .right p).1
      = focal c.fov / c.aspect * c.ipd / (-p.2.2) := by
  have hz' : p.2.2 ≠ 0 := ne_of_lt hz
  refine ⟨rfl, rfl, rfl, rfl, ?_⟩
  simp only [eyeScreen, projectPoint, set_stereo_projection, eye_x]
  field_simp
  ring

/-- Witness for C4 at the demo camera and the point (0, 0, -5). -/
theorem parallel_stereo_projection_witness :
    (((0:ℝ), (0:ℝ), (-5:ℝ)).2.2 < 0)
    ∧ ((eyeScreen demoConfig .left ((0:ℝ), (0:ℝ), (-5:ℝ))).2
        = (eyeScreen demoConfig .right ((0:ℝ), (0:ℝ), (-5:ℝ))).2
      ∧ (eyeScreen demoConfig .left ((0:ℝ), (0:ℝ), (-5:ℝ))).1
          - (eyeScreen demoConfig .right ((0:ℝ), (0:ℝ), (-5:ℝ))).1
        = focal demoConfig.fov / demoConfig.aspect * demoConfig.ipd
          / (-((0:ℝ), (0:ℝ), (-5:ℝ)).2.2)) := by
  have hz : ((0:ℝ), (0:ℝ), (-5:ℝ)).2.2 < 0 := by norm_num
  have h := parallel_stereo_projection demoConfig ((0:ℝ), (0:ℝ), (-5:ℝ)) hz
  exact ⟨hz, h.2.2.2.1, h.2.2.2.2⟩

/-! ### C9: asymmetric frustum -/

/-- Claim C9: for each eye the horizontal frustum bounds come from the
half-extent a = aspect * tan(fov/2) * near skewed by the term
eye_offset * (near / convergence) with the convergence distance the fixed
constant 1; only eye_offset = -IPD/2 or +IPD/2 varies with IPD (top, bottom
and the half-extent are unchanged when IPD changes); and the camera is
additionally translated by -eye_offset along x. -/
theorem asym_frustum_formulas (c : StereoConfig) (i : ℝ) :
    ((set_projection c .left).1.left_f
        = -skewBase c - eye_offset c.ipd .left * (c.near / convergence)
      ∧ (set_projection c .left).1.right_f
        = skewBase c - eye_offset c.ipd .left * (c.near / convergence))
    ∧ ((set_projection c .right).1.left_f
        = -(skewBase c - eye_offset c.ipd .right * (c.near / convergence))
      ∧ (set_projection c .right).1.right_f
        = -(-skewBase c - eye_offset c.ipd .right * (c.near / convergence)))
    ∧ (eye_offset c.ipd .left = -c.ipd / 2
      ∧ eye_offset c.ipd .right = c.ipd / 2)
    ∧ convergence = 1
    ∧ (∀ eye, (set_projection c eye).2 = -eye_offset c.ipd eye)
    ∧ (∀ eye,
        (set_projection { c with ipd := i } eye).1.top
          = (set_projection c eye).1.top
        ∧ (set_projection { c with ipd := i } eye).1.bottom
          = (set_projection c eye).1.bottom
        ∧ skewBase { c with ipd := i } = skewBase c) := by
  refine ⟨⟨rfl, rfl⟩, ⟨rfl, rfl⟩, ⟨rfl, rfl⟩, rfl, ?_, ?_⟩
  · intro eye; cases eye <;> rfl
  · intro eye; cases eye <;> exact ⟨rfl, rfl, rfl⟩

/-! ### C5: scissor isolation -/

/-- Claim C5: render_frame draws the left eye with viewport and scissor
exactly (0, 0, width/2, height) and then the right eye with exactly
(width/2, 0, width/2, height); a fragment surviving the left scissor never
has device x at or beyond width/2, and one surviving the right scissor
never has device x below width/2. -/
theorem eye_scissor_isolation (width height px py : ℕ) :
    framePasses width height
      = [⟨.left, ⟨0, 0, width / 2, height⟩, ⟨0, 0, width / 2, height⟩⟩,
         ⟨.right, ⟨width / 2, 0, width / 2, height⟩,
           ⟨width / 2, 0, width / 2, height⟩⟩]
    ∧ (inScissor ⟨0, 0, width / 2, height⟩ px py → ¬ width / 2 ≤ px)
    ∧ (inScissor ⟨width / 2, 0, width / 2, height⟩ px py → ¬ px < width / 2) := by
  refine ⟨rfl, ?_, ?_⟩
  · intro hin
    dsimp only [inScissor] at hin
    omega
  · intro hin
    dsimp only [inScissor] at hin
    omega

/-- Witness for C5 at the 3840 by 1080 surface: the fragment (100, 50)
survives the left-eye scissor and indeed lies left of the split. -/
theorem eye_scissor_isolation_witness :
    inScissor ⟨0, 0, 3840 / 2, 1080⟩ 100 50 ∧ ¬ 3840 / 2 ≤ 100 := by
  have hin : inScissor ⟨0, 0, 3840 / 2, 1080⟩ 100 50 := by decide
  exact ⟨hin, (eye_scissor_isolation 3840 1080 100 50).2.1 hin⟩

/-! ### C6: IPD adjustment -/

lemma runIntents_min (es : List IPDIntent) (ipd : ℚ) (h : 2/100 ≤ ipd) :
    2/100 ≤ runIntents ipd es := by
  induction es generalizing ipd with
  | nil => exact h
  | cons e rest ih =>
    show 2/100 ≤ runIntents (applyIntent ipd e) rest
    refine ih (applyIntent ipd e) ?_
    cases e with
    | increase =>
      simp only [applyIntent]
      linarith
    | decrease => exact le_max_left _ _

/-- Claim C6: each increase intent adds exactly the fixed step 0.005; each
decrease intent lowers IPD by at most 0.005 and never below the minimum
0.02; consequently, from the initial IPD 0.07 every intent sequence keeps
IPD at or above 0.02. -/
theorem ipd_adjust_clamped (ipd : ℚ) (es : List IPDIntent) :
    applyIntent ipd .increase = ipd + 5/1000
    ∧ ipd - applyIntent ipd .decrease ≤ 5/1000
    ∧ 2/100 ≤ applyIntent ipd .decrease
    ∧ 2/100 ≤ runIntents initialIPD es := by
  refine ⟨rfl, ?_, le_max_left _ _,
    runIntents_min es initialIPD (by norm_num [initialIPD])⟩
  have hmax := le_max_right (2/100 : ℚ) (ipd - 5/1000)
  simp only [applyIntent]
  linarith

/-! ### C7: initialization failures -/

/-- Counterexample to claim C7 as stated: when SDL_Init fails, main of
viture_3d_demo.py reports the failure and never enters the loop, but the
process finishes with exit code 0, not with a non-zero outcome. -/
theorem demo_init_failure_zero_exit :
    (demoMain ⟨false, true, true⟩).exitCode = 0
    ∧ (demoMain ⟨false, true, true⟩).reported = true
    ∧ (demoMain ⟨false, true, true⟩).loopEntered = false := by
  decide

/-- Claim C7 amended: after any initialization failure neither program
enters the render loop and both report it once; the sbs renderer then
terminates with exit code 1, while the 3d demo catches the exception and
terminates with exit code 0. -/
theorem init_failure_outcomes (e : InitEnv) (msg : String)
    (h : init_sdl e = .error msg) :
    (demoMain e).loopEntered = false
    ∧ (demoMain e).reported = true
    ∧ (demoMain e).exitCode = 0
    ∧ (sbsMain e).loopEntered = false
    ∧ (sbsMain e).reported = true
    ∧ (sbsMain e).exitCode = 1 := by
  simp [demoMain, sbsMain, h]

/-- Witness for C7 amended, at a failing SDL_Init. -/
theorem init_failure_outcomes_witness :
    init_sdl ⟨false, true, true⟩ = .error "SDL_Init failed"
    ∧ ((demoMain ⟨false, true, true⟩).loopEntered = false
      ∧ (demoMain ⟨false, true, true⟩).reported = true
      ∧ (demoMain ⟨false, true, true⟩).exitCode = 0
      ∧ (sbsMain ⟨false, true, true⟩).loopEntered = false
      ∧ (sbsMain ⟨false, true, true⟩).reported = true
      ∧ (sbsMain ⟨false, true, true⟩).exitCode = 1) := by
  have h : init_sdl ⟨false, true, true⟩ = .error "SDL_Init failed" := rfl
  exact ⟨h, init_failure_outcomes ⟨false, true, true⟩ "SDL_Init failed" h⟩

/-! ### C10: HSV conversion -/

/-- Counterexample to claim C10 as stated: at the negative hue -5/12 (with
s = v = 1) the sextant fraction f is negative and the returned red
component is -1/2, outside the unit range. -/
theorem hsv_negative_hue_escape :
    hsv_to_rgb (-5/12) 1 1 = some (-(1/2), 0, 1) ∧ ¬ (0 ≤ (-(1/2) : ℚ)) := by
  have hceil : ⌈(-5/12 : ℚ) * 6⌉ = -2 := by
    rw [Int.ceil_eq_iff]
    constructor <;> norm_num
  have hpy : pyint ((-5/12 : ℚ) * 6) = -2 := by
    rw [pyint, if_pos (by norm_num : (-5/12 : ℚ) * 6 < 0), hceil]
  constructor
  · simp only [hsv_to_rgb, hpy]
    norm_num
  · norm_num

/-- Claim C10 amended: for every nonnegative hue and s, v in [0, 1],
hsv_to_rgb returns a triple (never the fall-through) with all three
components in [0, 1]; and the hue the composite ring submits is always in
[0, 1), hence nonnegative, so every ring cube color is in unit range. -/
theorem hsv_unit_range (h s v : ℚ) (i : ℕ) (t : ℚ)
    (hh : 0 ≤ h) (hs0 : 0 ≤ s) (hs1 : s ≤ 1) (hv0 : 0 ≤ v) (hv1 : v ≤ 1) :
    (∃ c : ℚ × ℚ × ℚ, hsv_to_rgb h s v = some c
      ∧ 0 ≤ c.1 ∧ c.1 ≤ 1 ∧ 0 ≤ c.2.1 ∧ c.2.1 ≤ 1 ∧ 0 ≤ c.2.2 ∧ c.2.2 ≤ 1)
    ∧ 0 ≤ ring_hue i t ∧ ring_hue i t < 1 := by
  have hfr : ∀ x : ℚ, 0 ≤ x - (⌊x⌋ : ℚ) ∧ x - (⌊x⌋ : ℚ) < 1 := by
    intro x
    constructor
    · have := Int.floor_le x
      linarith
    · have := Int.lt_floor_add_one x
      linarith
  refine ⟨?_, (hfr _).1, (hfr _).2⟩
  by_cases hs : s = 0
  · exact ⟨(v, v, v), by simp [hsv_to_rgb, hs], hv0, hv1, hv0, hv1, hv0, hv1⟩
  · have hi0 : pyint (h * 6) = ⌊h * 6⌋ := by
      unfold pyint
      rw [if_neg]
      push_neg
      positivity
    have hf0 : 0 ≤ h * 6 - (⌊h * 6⌋ : ℚ) := (hfr (h * 6)).1
    have hf1 : h * 6 - (⌊h * 6⌋ : ℚ) < 1 := (hfr (h * 6)).2
    set F : ℚ := h * 6 - (⌊h * 6⌋ : ℚ) with hF
    have hp0 : 0 ≤ v * (1 - s) := mul_nonneg hv0 (by linarith)
    have hp1 : v * (1 - s) ≤ 1 := by nlinarith
    have hq0 : 0 ≤ v * (1 - s * F) := mul_nonneg hv0 (by nlinarith)
    have hq1 : v * (1 - s * F) ≤ 1 := by nlinarith [mul_nonneg hs0 hf0]
    have ht0 : 0 ≤ v * (1 - s * (1 - F)) := by
      refine mul_nonneg hv0 ?_
      nlinarith
    have ht1 : v * (1 - s * (1 - F)) ≤ 1 := by
      have hsf : 0 ≤ s * (1 - F) := mul_nonneg hs0 (by linarith)
      nlinarith
    have hm0 : 0 ≤ ⌊h * 6⌋ % 6 := Int.emod_nonneg _ (by norm_num)
    have hm6 : ⌊h * 6⌋ % 6 < 6 := Int.emod_lt_of_pos _ (by norm_num)
    have hcases : ⌊h * 6⌋ % 6 = 0 ∨ ⌊h * 6⌋ % 6 = 1 ∨ ⌊h * 6⌋ % 6 = 2
        ∨ ⌊h * 6⌋ % 6 = 3 ∨ ⌊h * 6⌋ % 6 = 4 ∨ ⌊h * 6⌋ % 6 = 5 := by omega
    rcases hcases with hc | hc | hc | hc | hc | hc <;>
      [refine ⟨(v, v * (1 - s * (1 - F)), v * (1 - s)), ?_, hv0, hv1, ht0, ht1, hp0, hp1⟩;
       refine ⟨(v * (1 - s * F), v, v * (1 - s)), ?_, hq0, hq1, hv0, hv1, hp0, hp1⟩;
       refine ⟨(v * (1 - s), v, v * (1 - s * (1 - F))), ?_, hp0, hp1, hv0, hv1, ht0, ht1⟩;
       refine ⟨(v * (1 - s), v * (1 - s * F), v), ?_, hp0, hp1, hq0, hq1, hv0, hv1⟩;
       refine ⟨(v * (1 - s * (1 - F)), v * (1 - s), v), ?_, ht0, ht1, hp0, hp1, hv0, hv1⟩;
       refine ⟨(v, v * (1 - s), v * (1 - s * F)), ?_, hv0, hv1, hp0, hp1, hq0, hq1⟩] <;>
      simp only [hsv_to_rgb, if_neg hs, hi0, hF, hc] <;>
      norm_num

/-- Witness for C10 amended at h = 1/3, s = 1/2, v = 1/2, ring cube 2 at
elapsed time 5. -/
theorem hsv_unit_range_witness :
    ((0:ℚ) ≤ 1/3 ∧ (0:ℚ) ≤ 1/2 ∧ (1/2:ℚ) ≤ 1 ∧ (0:ℚ) ≤ 1/2 ∧ (1/2:ℚ) ≤ 1)
    ∧ ((∃ c : ℚ × ℚ × ℚ, hsv_to_rgb (1/3) (1/2) (1/2) = some c
        ∧ 0 ≤ c.1 ∧ c.1 ≤ 1 ∧ 0 ≤ c.2.1 ∧ c.2.1 ≤ 1 ∧ 0 ≤ c.2.2 ∧ c.2.2 ≤ 1)
      ∧ 0 ≤ ring_hue 2 5 ∧ ring_hue 2 5 < 1) := by
  refine ⟨⟨by norm_num, by norm_num, by norm_num, by norm_num, by norm_num⟩, ?_⟩
  exact hsv_unit_range (1/3) (1/2) (1/2) 2 5
    (by norm_num) (by norm_num) (by norm_num) (by norm_num) (by norm_num)

end Viture
